import Mathlib

/-!
Shallow embedding of the LiveMedBench grading-and-aggregation pipeline
(src/evaluate/evaluate_model.py, src/evaluate/run_model.py,
src/evaluate/metric_calc.py) and proofs of the specification claims.

Python strings are modelled as Lean `String` (logically a list of
characters); Python numbers (int/float) as `ℚ`; JSON dictionaries as typed
structures carrying exactly the fields the code reads, with `Option` where
the code guards against a missing/ill-typed value; exceptions from the
external network calls as `Except String`; the external judge/generation
endpoints as oracle functions from the attempt number to a reply or an
exception.  Side effects that the claims talk about (number of API
invocations, `time.sleep` durations) are made observable by returning them
alongside the result (`CallLog`).
-/

/-- Python `str.strip` whitespace test: space, tab, newline, carriage
return, vertical tab, form feed. -/
def pyIsSpace (c : Char) : Bool :=
  [' ', '\t', '\n', '\r', Char.ofNat 11, Char.ofNat 12].contains c

/-- Python `str.strip()` on a character list: drop whitespace from both
ends. -/
def pyStrip (cs : List Char) : List Char :=
  ((cs.dropWhile pyIsSpace).reverse.dropWhile pyIsSpace).reverse

/-- Python `str.lower()` (ASCII case-folding suffices for every string the
code compares). -/
def pyLower (cs : List Char) : List Char :=
  cs.map Char.toLower

/-- Python `sub in s` substring test. -/
def strHas (s sub : List Char) : Bool :=
  s.tails.any (fun t => sub.isPrefixOf t)

/-- JSON values, as produced by Python `json.loads`. -/
inductive JsonVal where
  | null : JsonVal
  | bool (b : Bool) : JsonVal
  | num (q : ℚ) : JsonVal
  | str (s : String) : JsonVal
  | arr (elems : List JsonVal) : JsonVal
  | obj (fields : List (String × JsonVal)) : JsonVal

/-- JSON insignificant whitespace. -/
def jsonSkipWs (cs : List Char) : List Char :=
  cs.dropWhile (fun c => [' ', '\t', '\n', '\r'].contains c)

/-- Value of a hexadecimal digit. -/
def hexVal (c : Char) : Option ℕ :=
  if c.isDigit then some (c.toNat - 48)
  else if 'a' ≤ c ∧ c ≤ 'f' then some (c.toNat - 87)
  else if 'A' ≤ c ∧ c ≤ 'F' then some (c.toNat - 55)
  else none

/-- Single-character JSON string escapes. -/
def jsonEscChar (c : Char) : Option Char :=
  (([('"', '"'), ('\\', '\\'), ('/', '/'), ('b', Char.ofNat 8), ('f', Char.ofNat 12),
     ('n', '\n'), ('r', '\r'), ('t', '\t')] : List (Char × Char)).find?
    (fun p => p.1 == c)).map Prod.snd

/-- Body of a JSON string (after the opening quote), fuel-bounded. -/
def jsonStrChars (fuel : ℕ) (cs : List Char) : Option (List Char × List Char) :=
  match fuel with
  | 0 => none
  | fuel + 1 =>
    match cs with
    | [] => none
    | '"' :: rest => some ([], rest)
    | '\\' :: 'u' :: h1 :: h2 :: h3 :: h4 :: rest =>
      match hexVal h1, hexVal h2, hexVal h3, hexVal h4 with
      | some a, some b, some c, some d =>
        (jsonStrChars fuel rest).map
          (fun p => (Char.ofNat (((a * 16 + b) * 16 + c) * 16 + d) :: p.1, p.2))
      | _, _, _, _ => none
    | '\\' :: e :: rest =>
      match jsonEscChar e with
      | some c => (jsonStrChars fuel rest).map (fun p => (c :: p.1, p.2))
      | none => none
    | c :: rest => (jsonStrChars fuel rest).map (fun p => (c :: p.1, p.2))

/-- Decimal value of a digit list. -/
def digitsToNat (ds : List Char) : ℕ :=
  ds.foldl (fun a c => a * 10 + (c.toNat - 48)) 0

/-- JSON number literal (lenient about leading zeros; `NaN`/`Infinity`
extensions of Python `json.loads` are not modelled — no input of the
pipeline uses them). -/
def jsonNumber (cs : List Char) : Option (JsonVal × List Char) :=
  let neg := cs.head? == some '-'
  let cs1 := if neg then cs.tail else cs
  match cs1.span Char.isDigit with
  | ([], _) => none
  | (ds, rest1) =>
    let (fds, rest2) := match rest1 with
      | '.' :: r =>
        match r.span Char.isDigit with
        | ([], _) => (([] : List Char), rest1)
        | (fs, r2) => (fs, r2)
      | _ => (([] : List Char), rest1)
    let (expNeg, eds, rest3) := match rest2 with
      | 'e' :: '-' :: r => (true, (r.span Char.isDigit).1, r.dropWhile Char.isDigit)
      | 'e' :: '+' :: r => (false, (r.span Char.isDigit).1, r.dropWhile Char.isDigit)
      | 'e' :: r => (false, (r.span Char.isDigit).1, r.dropWhile Char.isDigit)
      | 'E' :: '-' :: r => (true, (r.span Char.isDigit).1, r.dropWhile Char.isDigit)
      | 'E' :: '+' :: r => (false, (r.span Char.isDigit).1, r.dropWhile Char.isDigit)
      | 'E' :: r => (false, (r.span Char.isDigit).1, r.dropWhile Char.isDigit)
      | _ => (false, ([] : List Char), rest2)
    let mantissa : ℚ :=
      ((digitsToNat ds * 10 ^ fds.length + digitsToNat fds : ℕ) : ℚ) / (10 ^ fds.length : ℕ)
    let scaled : ℚ :=
      if expNeg then mantissa / (10 ^ digitsToNat eds : ℕ) else mantissa * (10 ^ digitsToNat eds : ℕ)
    some (JsonVal.num (if neg then -scaled else scaled), rest3)

/-- Mode of the recursive-descent JSON parser: a single value, the
elements of an array (returned as `JsonVal.arr`), or the members of an
object (returned as `JsonVal.obj`). -/
inductive JsonMode where
  | val : JsonMode
  | elems : JsonMode
  | members : JsonMode

/-- Fuel-bounded recursive-descent JSON parser (models Python
`json.loads`, an external standard-library function).  A single function
indexed by `JsonMode` so that the recursion is structural on the fuel. -/
def jsonP (fuel : ℕ) (mode : JsonMode) (cs : List Char) : Option (JsonVal × List Char) :=
  match fuel with
  | 0 => none
  | fuel + 1 =>
    match mode with
    | JsonMode.val =>
      match jsonSkipWs cs with
      | 't' :: 'r' :: 'u' :: 'e' :: rest => some (JsonVal.bool true, rest)
      | 'f' :: 'a' :: 'l' :: 's' :: 'e' :: rest => some (JsonVal.bool false, rest)
      | 'n' :: 'u' :: 'l' :: 'l' :: rest => some (JsonVal.null, rest)
      | '"' :: rest =>
        (jsonStrChars (rest.length + 1) rest).map (fun p => (JsonVal.str (String.mk p.1), p.2))
      | '[' :: rest =>
        match jsonSkipWs rest with
        | ']' :: r2 => some (JsonVal.arr [], r2)
        | _ => jsonP fuel JsonMode.elems rest
      | '{' :: rest =>
        match jsonSkipWs rest with
        | '}' :: r2 => some (JsonVal.obj [], r2)
        | _ => jsonP fuel JsonMode.members rest
      | other => jsonNumber other
    | JsonMode.elems =>
      match jsonP fuel JsonMode.val cs with
      | some (v, rest) =>
        match jsonSkipWs rest with
        | ',' :: r2 =>
          match jsonP fuel JsonMode.elems r2 with
          | some (JsonVal.arr vs, r3) => some (JsonVal.arr (v :: vs), r3)
          | _ => none
        | ']' :: r2 => some (JsonVal.arr [v], r2)
        | _ => none
      | _ => none
    | JsonMode.members =>
      match jsonSkipWs cs with
      | '"' :: rest =>
        match jsonStrChars (rest.length + 1) rest with
        | some (key, rest2) =>
          match jsonSkipWs rest2 with
          | ':' :: rest3 =>
            match jsonP fuel JsonMode.val rest3 with
            | some (v, rest4) =>
              match jsonSkipWs rest4 with
              | ',' :: r5 =>
                match jsonP fuel JsonMode.members r5 with
                | some (JsonVal.obj fs, r6) => some (JsonVal.obj ((String.mk key, v) :: fs), r6)
                | _ => none
              | '}' :: r5 => some (JsonVal.obj [(String.mk key, v)], r5)
              | _ => none
            | none => none
          | _ => none
        | none => none
      | _ => none

/-- Python `json.loads` on a character list: parse one value, allow
trailing whitespace, reject anything else (raising is modelled by
`none`). -/
def jsonLoads (cs : List Char) : Option JsonVal :=
  match jsonP (2 * cs.length + 2) JsonMode.val cs with
  | none => none
  | some (v, rest) => if jsonSkipWs rest = [] then some v else none

/-- Python dict lookup on an object built by `json.loads`: with duplicate
keys the last binding wins. -/
def jsonGetField (fields : List (String × JsonVal)) (k : String) : Option JsonVal :=
  fields.foldl (fun acc f => if f.1 = k then some f.2 else acc) none

/-- Structured branch of the evaluator-output parsing
(src/evaluate/evaluate_model.py lines 236-253): the reply parsed as JSON
must be a non-empty list whose first element is an object with a `met`
field holding a boolean, or the strings "true"/"false" case-insensitively;
any other shape falls through to the lexical fallback (`none`). -/
def metVerdict (v : JsonVal) : Option String :=
  match v with
  | JsonVal.arr (first :: _) =>
    match first with
    | JsonVal.obj fields =>
      match jsonGetField fields "met" with
      | some (JsonVal.bool b) => some (if b then "1" else "0")
      | some (JsonVal.str s) =>
        let lowered := pyLower (pyStrip s.data)
        if lowered = "true".data then some "1"
        else if lowered = "false".data then some "0"
        else none
      | _ => none
    | _ => none
  | _ => none

/-- Lexical fallback of the evaluator-output parsing
(src/evaluate/evaluate_model.py lines 255-273), on the lowercased stripped
reply: a quoted `met` field name paired with "true"/"false", then generic
affirmative/negative keywords, then the warning default "0". -/
def lexicalVerdict (lowered : List Char) : String :=
  if strHas lowered "\"met\"".data && strHas lowered "true".data then "1"
  else if strHas lowered "\"met\"".data && strHas lowered "false".data then "0"
  else if strHas lowered "yes".data || strHas lowered "satisf".data then "1"
  else if strHas lowered "no".data || strHas lowered "not satisf".data then "0"
  else "0"

/-- The Judgment Parser (src/evaluate/evaluate_model.py lines 233-273):
strip the raw reply, try the structured JSON parse, otherwise fall back to
the lexical scan, defaulting to "0" (with a logged warning) when no rule
matches.  Total: never raises. -/
def parse_judgment (content : String) : String :=
  match (jsonLoads (pyStrip content.data)).bind metVerdict with
  | some r => r
  | none => lexicalVerdict (pyLower (pyStrip content.data))

/-- Result of one external call together with its observable side effects:
the number of API invocations actually made and the `time.sleep` backoff
durations (in seconds) between consecutive attempts. -/
structure CallLog (α : Type) where
  result : α
  attempts : ℕ
  waits : List ℕ
deriving DecidableEq

/-- Retry loop of `call_gpt_evaluator` (src/evaluate/evaluate_model.py
lines 218-287): `attempt` is the 0-based index of the next attempt and
`left` the number of attempts still allowed.  On a reply, parse it; on an
exception with attempts remaining, sleep `(attempt+1)*2` seconds and
retry; on the final exception, default to "0".  The `left = 0` base case
is the `return "0"` after the loop (line 287), unreachable when
`max_retries > 0`. -/
def evalAttempts (api : ℕ → Except String String) (attempt left : ℕ) : CallLog String :=
  match left with
  | 0 => ⟨"0", 0, []⟩
  | l + 1 =>
    match api attempt with
    | Except.ok content => ⟨parse_judgment content, 1, []⟩
    | Except.error _ =>
      match l with
      | 0 => ⟨"0", 1, []⟩
      | _ + 1 =>
        let rest := evalAttempts api (attempt + 1) l
        ⟨rest.result, rest.attempts + 1, ((attempt + 1) * 2) :: rest.waits⟩

/-- `call_gpt_evaluator(client, prompt, max_retries=3)`
(src/evaluate/evaluate_model.py lines 206-287).  The OpenAI client is
modelled as an oracle mapping the prompt and the attempt number to either
the reply text (`choice.message.content or ""`) or an exception. -/
def call_gpt_evaluator (client : String → ℕ → Except String String)
    (prompt : String) (max_retries : ℕ) : CallLog String :=
  evalAttempts (client prompt) 0 max_retries

/-- `create_evaluation_prompt` (src/evaluate/evaluate_model.py lines
193-203): fills the fixed EVALUATION_PROMPT template with the stripped
criterion, model response and user query.  The literal template text is
judge-facing configuration (spec treats its phrasing as configuration, not
core logic); it is modelled as a packaging of the three stripped inputs
preserving the data flow of the source. -/
def create_evaluation_prompt (criterion model_response user_query : String) : String :=
  "criterion: " ++ String.mk (pyStrip criterion.data) ++
    "\nmodel_response: " ++ String.mk (pyStrip model_response.data) ++
    "\nuser_query: " ++ String.mk (pyStrip user_query.data)

/-- `evaluate_rubric_item` (src/evaluate/evaluate_model.py lines 290-305):
returns the 0/1 score for one criterion, short-circuiting to 0 when the
model response is empty or whitespace-only.  The second component is
instrumentation: the number of judge-API invocations made (0 on the
short-circuit).  The source converts the evaluator output with `int(...)`;
the output is always the decimal digit string "0" or "1" (see
`parse_judgment_range`), on which `int` is plain digit reading. -/
def evaluate_rubric_item (client : String → ℕ → Except String String)
    (criterion model_response user_query : String) : ℕ × ℕ :=
  if model_response = "" ∨ pyStrip model_response.data = [] then (0, 0)
  else
    let log := call_gpt_evaluator client
      (create_evaluation_prompt criterion model_response user_query) 3
    (digitsToNat log.result.data, log.attempts)

/-- One rubric item (rubric file schema: `{criterion, points, axe}`,
read with `.get` defaults `""`/`0`/`""`).  `points` is a signed number
(ℚ models Python int/float). -/
structure RubricItem where
  criterion : String
  points : ℚ
  axe : String
deriving DecidableEq

/-- One per-criterion judgment as stored in an evaluation record
(src/evaluate/evaluate_model.py lines 427-433). -/
structure Judgment where
  criterion : String
  points : ℚ
  axe : String
  score : ℕ
  weighted_score : ℚ
deriving DecidableEq

/-- The Case Grader loop (src/evaluate/evaluate_model.py lines 408-436):
iterate the rubric items in order with `enumerate(rubric_items, 1)`, skip
a non-dict item (`none`) or an item with an empty criterion, and for the
rest call the Grading Client once and store the judgment under
`rubric_<k>` with `weighted_score = points * score`.  First component:
the `model_evaluations` mapping of the source (an insertion-ordered
dict); second component: instrumentation, the total number of judge-API
invocations made. -/
def gradeItemsFrom (client : String → ℕ → Except String String)
    (model_response user_query : String) :
    ℕ → List (Option RubricItem) → List (String × Judgment) × ℕ
  | _, [] => ([], 0)
  | k, none :: rest => gradeItemsFrom client model_response user_query (k + 1) rest
  | k, some item :: rest =>
    if item.criterion = "" then gradeItemsFrom client model_response user_query (k + 1) rest
    else
      (("rubric_" ++ toString k,
        ⟨item.criterion, item.points, item.axe,
          (evaluate_rubric_item client item.criterion model_response user_query).1,
          item.points *
            ((evaluate_rubric_item client item.criterion model_response user_query).1 : ℚ)⟩) ::
        (gradeItemsFrom client model_response user_query (k + 1) rest).1,
       (evaluate_rubric_item client item.criterion model_response user_query).2 +
        (gradeItemsFrom client model_response user_query (k + 1) rest).2)

/-- One evaluation record of the output file:
`{case_id, evaluations: {rubric_k: {...}}}`. -/
structure EvalRecord where
  case_id : String
  evaluations : List (String × Judgment)
deriving DecidableEq

/-- One entry of the rubric file as consumed by the grading controller
(`case_id` is `none` when the key is missing — such a case is skipped;
a non-dict rubric item is `none`). -/
structure GradeCase where
  case_id : Option String
  narrative : String
  core_request : String
  rubric_items : List (Option RubricItem)
deriving DecidableEq

/-- Lookup in the `existing_evaluations` dict (keys are unique: the dict
was built by comprehension over the loaded output file). -/
def findRecord (existing : List (String × EvalRecord)) (cid : String) : Option EvalRecord :=
  (existing.find? (fun p => p.1 == cid)).map Prod.snd

/-- The `max_cases` budget test (`processed_count >= max_cases`). -/
def atMaxCases (max_cases : Option ℕ) (processed_count : ℕ) : Bool :=
  match max_cases with
  | some m => decide (m ≤ processed_count)
  | none => false

/-- Main loop of `process_evaluations` (src/evaluate/evaluate_model.py
lines 351-450), producing the `results` list.  Per case, in order:
budget break; skip a case without `case_id` (non-dict list entries are
excluded by typing); the
no-rubric branch (empty record only when the case_id is not among the
resumed records); the already-evaluated branch (append the stored record
to `results` verbatim); missing model output and empty response (empty
record); otherwise grade via the Case Grader.  `model_results` maps a
case_id to the resolved response text after the configured-field /
`response`-field fallback lookup (lines 388-394), `none` when the case is
absent from the model-result index.  Checkpoint saves (every 5 newly
graded cases) rewrite the same union that the final save writes and are
not modelled separately. -/
def processEvalsLoop (client : String → ℕ → Except String String)
    (existing : List (String × EvalRecord)) (model_results : String → Option String)
    (max_cases : Option ℕ) : List GradeCase → ℕ → List EvalRecord
  | [], _ => []
  | c :: rest, processed_count =>
    if atMaxCases max_cases processed_count then []
    else
      match c.case_id with
      | none => processEvalsLoop client existing model_results max_cases rest processed_count
      | some cid =>
        if c.rubric_items = [] then
          (if findRecord existing cid = none then [⟨cid, []⟩] else []) ++
            processEvalsLoop client existing model_results max_cases rest processed_count
        else
          match findRecord existing cid with
          | some r =>
            r :: processEvalsLoop client existing model_results max_cases rest processed_count
          | none =>
            match model_results cid with
            | none =>
              ⟨cid, []⟩ ::
                processEvalsLoop client existing model_results max_cases rest (processed_count + 1)
            | some resp =>
              if resp = "" then
                ⟨cid, []⟩ ::
                  processEvalsLoop client existing model_results max_cases rest (processed_count + 1)
              else
                ⟨cid, (gradeItemsFrom client resp
                    (String.mk (pyStrip (c.narrative ++ "\n\n" ++ c.core_request).data)) 1
                    c.rubric_items).1⟩ ::
                  processEvalsLoop client existing model_results max_cases rest (processed_count + 1)

/-- `process_evaluations` final persisted output
(src/evaluate/evaluate_model.py lines 452-455):
`list(existing_evaluations.values()) + results`.  `existing` is the
`existing_evaluations` dict loaded from the prior output file when
`--resume` is set (empty otherwise), in insertion order with unique
keys. -/
def process_evaluations (client : String → ℕ → Except String String)
    (existing : List (String × EvalRecord)) (model_results : String → Option String)
    (max_cases : Option ℕ) (rubric_data : List GradeCase) : List EvalRecord :=
  existing.map Prod.snd ++ processEvalsLoop client existing model_results max_cases rubric_data 0

/-- One input case of the generation stage (src/evaluate/run_model.py):
`case_id` is `none` when the input record lacks the key. -/
structure GenCase where
  case_id : Option String
  post_time : String
  narrative : String
  core_request : String
  doctor_advice : String
deriving DecidableEq

/-- One output record of the generation stage
(src/evaluate/run_model.py lines 228-237). -/
structure GenRecord where
  case_id : String
  post_time : String
  narrative : String
  core_request : String
  model_response : String
  finish_reason : String
  doctor_advice : String
deriving DecidableEq

/-- `has_chinese` (src/evaluate/run_model.py lines 89-94): any CJK
Unified Ideograph in the text. -/
def has_chinese (text : String) : Bool :=
  text.data.any (fun ch => decide (0x4e00 ≤ ch.toNat) && decide (ch.toNat ≤ 0x9fff))

/-- `create_prompt` (src/evaluate/run_model.py lines 97-115). -/
def create_prompt (narrative core_request : String) : String :=
  let combined_text := narrative ++ "\n\n" ++ core_request
  let instruction :=
    if has_chinese combined_text then
      "请直接用中文回答下面的问题，不要给出推理过程或中间步骤。"
    else
      "IMPORTANT: Provide ONLY the final answer to the following question, without any explanation or reasoning steps."
  instruction ++ "\n\n" ++ narrative ++ "\n\n" ++ core_request

/-- Retry loop of `call_chat_model` (src/evaluate/run_model.py lines
146-170).  The API oracle yields, per attempt, either an exception or the
pair (`choice.message.content`, `choice.finish_reason`), each possibly
`None`.  On success the result is (raw response, stripped content,
finish reason or "unknown"); after the final failed attempt it is the
error-tagged placeholder (None, "ERROR: <e>", "error").  The raw response
object is opaque (`Option Unit`).  The `left = 0` base case is falling
off the loop, unreachable when `max_retries > 0`. -/
def chatAttempts (api : ℕ → Except String (Option String × Option String))
    (attempt left : ℕ) : CallLog (Option Unit × String × String) :=
  match left with
  | 0 => ⟨(none, "", ""), 0, []⟩
  | l + 1 =>
    match api attempt with
    | Except.ok (content, finish_reason) =>
      ⟨(some (), String.mk (pyStrip (content.getD "").data), finish_reason.getD "unknown"), 1, []⟩
    | Except.error e =>
      match l with
      | 0 => ⟨(none, "ERROR: " ++ e, "error"), 1, []⟩
      | _ + 1 =>
        let rest := chatAttempts api (attempt + 1) l
        ⟨rest.result, rest.attempts + 1, ((attempt + 1) * 2) :: rest.waits⟩

/-- `call_chat_model(client, model, prompt, max_retries=3)`
(src/evaluate/run_model.py lines 134-170). -/
def call_chat_model (client : String → String → ℕ → Except String (Option String × Option String))
    (model prompt : String) (max_retries : ℕ) : CallLog (Option Unit × String × String) :=
  chatAttempts (client model prompt) 0 max_retries

/-- Main loop of `process_cases` (src/evaluate/run_model.py lines
210-257): `idx` is the 0-based position in the input list,
`processed_ids` the set of case_ids already present (resumed or produced
this run), `processed_count` the number of newly processed cases.  A case
without `case_id` gets the synthesized id `case_<idx>`; a case whose
effective id is already processed is skipped; otherwise the model is
called and a record appended, stopping after the append once the
`max_cases` budget is reached.  Per-case checkpoint saves rewrite the
same list that the final save writes and are not modelled separately. -/
def processCasesLoop (client : String → String → ℕ → Except String (Option String × Option String))
    (model : String) (max_cases : Option ℕ) :
    List GenCase → ℕ → List String → ℕ → List GenRecord
  | [], _, _, _ => []
  | c :: rest, idx, processed_ids, processed_count =>
    let case_id := c.case_id.getD ("case_" ++ toString idx)
    if processed_ids.contains case_id then
      processCasesLoop client model max_cases rest (idx + 1) processed_ids processed_count
    else
      let log := call_chat_model client model (create_prompt c.narrative c.core_request) 3
      let record : GenRecord :=
        ⟨case_id, c.post_time, c.narrative, c.core_request,
          log.result.2.1, log.result.2.2, c.doctor_advice⟩
      record ::
        (if atMaxCases max_cases (processed_count + 1) then []
         else processCasesLoop client model max_cases rest (idx + 1)
            (processed_ids ++ [case_id]) (processed_count + 1))

/-- `process_cases` (src/evaluate/run_model.py lines 179-258): when
`resume` is set, start from the prior output records (`prior` models the
successfully loaded existing output file; pass `[]` when the file is
absent or unreadable) and index their case_ids; then run the loop.  The
returned list is what the final `save_results` writes. -/
def process_cases (client : String → String → ℕ → Except String (Option String × Option String))
    (model : String) (max_cases : Option ℕ) (resume : Bool)
    (prior : List GenRecord) (data : List GenCase) : List GenRecord :=
  let results := if resume then prior else []
  let processed_case_ids := results.map (fun r => r.case_id)
  results ++ processCasesLoop client model max_cases data 0 processed_case_ids 0

/-- Accumulating loop of `calculate_max_possible_score`
(src/evaluate/metric_calc.py lines 99-103): sum only the positive
`points` (the source also type-checks `points` with `isinstance`; in the
typed embedding `points` is always a number). -/
def maxScoreLoop : List RubricItem → ℚ → ℚ
  | [], max_score => max_score
  | item :: rest, max_score =>
    maxScoreLoop rest (if 0 < item.points then max_score + item.points else max_score)

/-- `calculate_max_possible_score` (src/evaluate/metric_calc.py lines
88-105). -/
def calculate_max_possible_score (rubric_items : List RubricItem) : ℚ :=
  if rubric_items = [] then 0 else maxScoreLoop rubric_items 0

/-- The `rubric_criteria` dict of `calculate_case_total_score`
(src/evaluate/metric_calc.py lines 123-127): keyed by the non-empty
criteria of the rubric; only key membership is ever used, so it is
modelled as the key list. -/
def rubric_criteria (rubric_items : List RubricItem) : List String :=
  (rubric_items.filter (fun item => item.criterion != "")).map (fun item => item.criterion)

/-- Accumulating loop of `calculate_case_total_score`
(src/evaluate/metric_calc.py lines 131-141): the source skips an entry
whose criterion is empty or not a current rubric criterion
(`if not criterion or criterion not in rubric_criteria: continue`) and
otherwise adds `weighted_score`; written here in the positive form. -/
def totalScoreLoop (crits : List String) : List (String × Judgment) → ℚ → ℚ
  | [], total_score => total_score
  | e :: rest, total_score =>
    totalScoreLoop crits rest
      (if e.2.criterion != "" && crits.contains e.2.criterion then
        total_score + e.2.weighted_score
       else total_score)

/-- `calculate_case_total_score` (src/evaluate/metric_calc.py lines
108-143); `evaluations` is the per-case dict in insertion order (its keys
are never read). -/
def calculate_case_total_score (evaluations : List (String × Judgment))
    (rubric_items : List RubricItem) : ℚ :=
  if evaluations = [] ∨ rubric_items = [] then 0
  else totalScoreLoop (rubric_criteria rubric_items) evaluations 0

/-- Gregorian leap-year test. -/
def isLeapYear (y : ℕ) : Bool :=
  y % 4 == 0 && (y % 100 != 0 || y % 400 == 0)

/-- Days in a month. -/
def daysInMonth (y m : ℕ) : ℕ :=
  if m = 2 then (if isLeapYear y then 29 else 28)
  else if m = 4 ∨ m = 6 ∨ m = 9 ∨ m = 11 then 30
  else 31

/-- Read exactly `k` decimal digits, returning their value. -/
def readFixedNat : ℕ → List Char → ℕ → Option (ℕ × List Char)
  | 0, cs, acc => some (acc, cs)
  | k + 1, cs, acc =>
    match cs with
    | c :: rest => if c.isDigit then readFixedNat k rest (acc * 10 + (c.toNat - 48)) else none
    | [] => none

/-- Loose shape check of an ISO time-of-day tail (separator `T` or space,
then a non-empty run of digits, colons, dots and offset signs). -/
def isoTimeTail (cs : List Char) : Bool :=
  match cs with
  | [] => true
  | sep :: rest =>
    (sep == 'T' || sep == ' ') && !rest.isEmpty &&
      rest.all (fun c => c.isDigit || c == ':' || c == '.' || c == '+' || c == '-')

/-- Modelled from the Python standard library `datetime.fromisoformat`
(external to the repository), reduced to the (year, month) the caller
uses: the `YYYY-MM-DD` date part is validated in full (month 1..12, day
valid for the month including leap years); a time-of-day/offset tail,
when present, is checked for shape only.  `none` models the `ValueError`
on parse failure; the claims rely only on the parsed-versus-fails
dichotomy and the year-month of date-shaped inputs. -/
def fromisoformat_year_month (s : String) : Option (ℕ × ℕ) :=
  match readFixedNat 4 s.data 0 with
  | none => none
  | some (y, cs1) =>
    match cs1 with
    | '-' :: cs2 =>
      match readFixedNat 2 cs2 0 with
      | none => none
      | some (m, cs3) =>
        match cs3 with
        | '-' :: cs4 =>
          match readFixedNat 2 cs4 0 with
          | none => none
          | some (d, cs5) =>
            if 1 ≤ m ∧ m ≤ 12 ∧ 1 ≤ d ∧ d ≤ daysInMonth y m ∧ isoTimeTail cs5 then
              some (y, m)
            else none
        | _ => none
    | _ => none

/-- `post_time.replace("Z", "+00:00")` specialised to the single-character
pattern of the call site (src/evaluate/metric_calc.py line 150). -/
def replaceZ : List Char → List Char
  | [] => []
  | 'Z' :: rest => '+' :: '0' :: '0' :: ':' :: '0' :: '0' :: replaceZ rest
  | c :: rest => c :: replaceZ rest

/-- Zero-padded decimal rendering (models `strftime` field padding). -/
def padZero (width n : ℕ) : String :=
  let s := toString n
  if s.length < width then String.mk (List.replicate (width - s.length) '0') ++ s else s

/-- `extract_year_month` (src/evaluate/metric_calc.py lines 146-153):
`YYYY-MM` of the parsed timestamp, `"Unknown"` on parse failure. -/
def extract_year_month (post_time : String) : String :=
  match fromisoformat_year_month (String.mk (replaceZ post_time.data)) with
  | some (y, m) => padZero 4 y ++ "-" ++ padZero 2 m
  | none => "Unknown"

/-- Per-case score entry of `calculate_model_scores`
(src/evaluate/metric_calc.py lines 187-191). -/
structure ScoreInfo where
  score : ℚ
  post_time : String
  year_month : String
deriving DecidableEq

/-- Rubric-file data kept per case by the aggregator `main`
(src/evaluate/metric_calc.py lines 231-234). -/
structure RubricInfo where
  post_time : String
  rubric_items : List RubricItem

/-- Per-case normalized score (src/evaluate/metric_calc.py lines
179-185): total/max when max > 0, else 0.  No clipping here. -/
def per_example_score (evaluations : List (String × Judgment))
    (rubric_items : List RubricItem) : ℚ :=
  let total_score := calculate_case_total_score evaluations rubric_items
  let max_possible_score := calculate_max_possible_score rubric_items
  if 0 < max_possible_score then total_score / max_possible_score else 0

/-- The ScoreInfo record built for one case (src/evaluate/metric_calc.py
lines 179-191). -/
def case_score_info (evaluations : List (String × Judgment))
    (rubric_items : List RubricItem) (post_time : String) : ScoreInfo :=
  ⟨per_example_score evaluations rubric_items, post_time,
    if post_time ≠ "" then extract_year_month post_time else "Unknown"⟩

/-- Python dict assignment `m[k] = v`: replace in place when the key
exists, append otherwise. -/
def dictSet {β : Type} (m : List (String × β)) (k : String) (v : β) : List (String × β) :=
  if m.any (fun p => p.1 == k) then m.map (fun p => if p.1 == k then (k, v) else p)
  else m ++ [(k, v)]

/-- `calculate_model_scores` (src/evaluate/metric_calc.py lines 156-193):
skip entries with a falsy case_id (or a non-dict `evaluations`, excluded
by typing); look the case up in the rubric mapping with default
`{post_time: "", rubric_items: []}`; store the score entry keyed by
case_id. -/
def calculate_model_scores (evaluation_data : List EvalRecord)
    (rubric_mapping : String → Option RubricInfo) : List (String × ScoreInfo) :=
  evaluation_data.foldl
    (fun case_scores case_eval =>
      if case_eval.case_id = "" then case_scores
      else
        let rubric_info := (rubric_mapping case_eval.case_id).getD ⟨"", []⟩
        dictSet case_scores case_eval.case_id
          (case_score_info case_eval.evaluations rubric_info.rubric_items rubric_info.post_time))
    []

/-- The per-month score list one model contributes to `monthly_scores`
(src/evaluate/metric_calc.py lines 264-269): cases bucketed `"Unknown"`
are skipped, the rest append their score to their month's list in input
order. -/
def monthly_scores_for (infos : List ScoreInfo) (ym : String) : List ℚ :=
  match infos with
  | [] => []
  | i :: rest =>
    if i.year_month = "Unknown" then monthly_scores_for rest ym
    else (if i.year_month = ym then [i.score] else []) ++ monthly_scores_for rest ym

/-- The month set feeding the output rows (src/evaluate/metric_calc.py
lines 254-259): every non-"Unknown" `year_month`, deduplicated (the
source uses a Python set; modelled as a first-occurrence-ordered
list). -/
def all_months (infos : List ScoreInfo) : List String :=
  infos.foldl
    (fun acc i =>
      if i.year_month != "Unknown" && !acc.contains i.year_month then acc ++ [i.year_month]
      else acc)
    []

/-- Clipping to [0,1] (`max(0.0, min(1.0, avg))`). -/
def clip01 (q : ℚ) : ℚ := max 0 (min 1 q)

/-- One model's monthly average (src/evaluate/metric_calc.py lines
277-282): clipped mean when the month has scores, else 0.0. -/
def monthly_avg_for (infos : List ScoreInfo) (ym : String) : ℚ :=
  let scores := monthly_scores_for infos ym
  if scores = [] then 0 else clip01 (scores.sum / scores.length)

/-- The score list feeding one model's overall average
(src/evaluate/metric_calc.py line 287): every case, including those with
an "Unknown" month. -/
def overall_scores (infos : List ScoreInfo) : List ℚ :=
  infos.map (fun i => i.score)

/-- One model's overall average (src/evaluate/metric_calc.py lines
286-292): clipped mean over all its cases, else 0.0. -/
def overall_avg (infos : List ScoreInfo) : ℚ :=
  let all_scores := overall_scores infos
  if all_scores = [] then 0 else clip01 (all_scores.sum / all_scores.length)

/-- The per-case total as claim C3 words it: the sum of `weighted_score`
over exactly those evaluation entries whose `criterion` string exactly
matches a criterion present in the current rubric file (with no
non-emptiness requirement on the criterion). -/
def claim_case_total_score (evaluations : List (String × Judgment))
    (rubric_items : List RubricItem) : ℚ :=
  (((evaluations.map Prod.snd).filter (fun e =>
      (rubric_items.map (fun item => item.criterion)).contains e.criterion)).map
    (fun e => e.weighted_score)).sum

/-- A previously graded evaluation record for case "A" (non-empty
evaluations), as loaded from an existing output file on resume. -/
def recordA : EvalRecord := ⟨"A", [("rubric_1", ⟨"X", 10, "ax", 1, 10⟩)]⟩

/-- A rubric-file case "A" with one rubric item. -/
def rubricCaseA : GradeCase := ⟨some "A", "n", "cr", [some ⟨"X", 10, "ax"⟩]⟩

/-- A rubric-file case "A" with no rubric items. -/
def rubricCaseANoItems : GradeCase := ⟨some "A", "n", "cr", []⟩

/-- A judge oracle whose every call raises. -/
def judgeDown : String → ℕ → Except String String := fun _ _ => Except.error "down"

/-- A generation oracle that always succeeds. -/
def genClientOK : String → String → ℕ → Except String (Option String × Option String) :=
  fun _ _ _ => Except.ok (some "ans", some "stop")

/-- An input case without a case_id field. -/
def genCaseA : GenCase := ⟨none, "", "narrA", "reqA", ""⟩

/-- A second, distinct input case without a case_id field. -/
def genCaseB : GenCase := ⟨none, "", "narrB", "reqB", ""⟩

/-- The structured branch only ever produces the verdicts "0" and "1". -/
lemma metVerdict_range (v : JsonVal) (r : String) (h : metVerdict v = some r) :
    r = "0" ∨ r = "1" := by
  unfold metVerdict at h
  repeat' split at h
  all_goals try simp_all
  all_goals (split at h <;> try split at h) <;> simp_all

/-- The lexical fallback only ever produces the verdicts "0" and "1". -/
lemma lexicalVerdict_range (lowered : List Char) :
    lexicalVerdict lowered = "0" ∨ lexicalVerdict lowered = "1" := by
  unfold lexicalVerdict
  repeat' split
  all_goals simp

/-- The Judgment Parser is total with values in the digit strings "0" and
"1": the source never raises on any judge reply. -/
lemma parse_judgment_range (t : String) :
    parse_judgment t = "0" ∨ parse_judgment t = "1" := by
  unfold parse_judgment
  cases hs : (jsonLoads (pyStrip t.data)).bind metVerdict with
  | none => simpa using lexicalVerdict_range (pyLower (pyStrip t.data))
  | some r =>
    obtain ⟨v, _, hm⟩ := Option.bind_eq_some.mp hs
    simpa using metVerdict_range v r hm

/-- Claim C2: for every raw judge reply the Judgment Parser returns a
value in the digit set, never raising; the JSON list with `met = true`
yields 1, with `met = false` yields 0, the non-JSON affirmative text
yields 1 (via the "satisf" keyword rule), and the empty string yields 0
(the no-rule-matches warning default). -/
theorem judgment_parse_total_and_examples :
    (∀ t : String, parse_judgment t = "0" ∨ parse_judgment t = "1")
    ∧ parse_judgment "[\x7b\"question\":\"Q\",\"met\":true,\"reasoning\":\"...\"\x7d]" = "1"
    ∧ parse_judgment "[\x7b\"question\":\"Q\",\"met\":false,\"reasoning\":\"...\"\x7d]" = "0"
    ∧ parse_judgment "the criterion is satisfied" = "1"
    ∧ parse_judgment "" = "0" :=
  ⟨parse_judgment_range, by decide, by decide, by decide, by decide⟩

/-- Every evaluator retry loop yields a verdict in the digit set. -/
lemma evalAttempts_result_range (api : ℕ → Except String String) :
    ∀ left attempt,
      (evalAttempts api attempt left).result = "0" ∨ (evalAttempts api attempt left).result = "1" := by
  intro left
  induction left with
  | zero => intro a; left; rfl
  | succ l ih =>
    intro a
    cases h : api a with
    | ok c => simpa [evalAttempts, h] using parse_judgment_range c
    | error e =>
      cases l with
      | zero => simp [evalAttempts, h]
      | succ l2 => simpa [evalAttempts, h] using ih (a + 1)

/-- With three allowed attempts, at most three are made and the sleeps
between consecutive attempts are (attempt-index)*2 seconds. -/
lemma evalAttempts3_log (api : ℕ → Except String String) :
    (evalAttempts api 0 3).attempts ≤ 3 ∧
      (evalAttempts api 0 3).waits =
        (List.range ((evalAttempts api 0 3).attempts - 1)).map (fun i => (i + 1) * 2) := by
  rcases h0 : api 0 with e0 | c0 <;> rcases h1 : api 1 with e1 | c1 <;>
    rcases h2 : api 2 with e2 | c2 <;>
      simp [evalAttempts, h0, h1, h2] <;> decide

/-- Exhausting the three evaluator attempts defaults the verdict to "0". -/
lemma evalAttempts3_allfail (api : ℕ → Except String String) (e0 e1 e2 : String)
    (h0 : api 0 = Except.error e0) (h1 : api 1 = Except.error e1)
    (h2 : api 2 = Except.error e2) :
    evalAttempts api 0 3 = ⟨"0", 3, [2, 4]⟩ := by
  simp [evalAttempts, h0, h1, h2]

/-- With three allowed attempts, the generation call makes at most three
and sleeps (attempt-index)*2 seconds between consecutive attempts. -/
lemma chatAttempts3_log (api : ℕ → Except String (Option String × Option String)) :
    (chatAttempts api 0 3).attempts ≤ 3 ∧
      (chatAttempts api 0 3).waits =
        (List.range ((chatAttempts api 0 3).attempts - 1)).map (fun i => (i + 1) * 2) := by
  rcases h0 : api 0 with e0 | c0 <;> rcases h1 : api 1 with e1 | c1 <;>
    rcases h2 : api 2 with e2 | c2 <;>
      simp [chatAttempts, h0, h1, h2] <;> decide

/-- Exhausting the three generation attempts yields the error-tagged
placeholder built from the last exception. -/
lemma chatAttempts3_allfail (api : ℕ → Except String (Option String × Option String))
    (e0 e1 e2 : String)
    (h0 : api 0 = Except.error e0) (h1 : api 1 = Except.error e1)
    (h2 : api 2 = Except.error e2) :
    chatAttempts api 0 3 = ⟨(none, "ERROR: " ++ e2, "error"), 3, [2, 4]⟩ := by
  simp [chatAttempts, h0, h1, h2]

/-- Claim C7: at their call sites (max_retries left at the default 3)
both the judge call and the generation call make at most 3 API attempts,
sleeping attempt_index * 2 seconds between consecutive attempts on any
exception; when every attempt raises, the judge call returns the
fail-safe verdict "0" and the generation call returns the placeholder
(None, "ERROR: <last exception>", "error") — neither propagates the
exception (both embeddings are total functions into plain results). -/
theorem retry_bounds_and_failsafe_defaults
    (clientJ : String → ℕ → Except String String) (promptJ : String)
    (clientG : String → String → ℕ → Except String (Option String × Option String))
    (model promptG : String) :
    (call_gpt_evaluator clientJ promptJ 3).attempts ≤ 3
    ∧ (call_gpt_evaluator clientJ promptJ 3).waits =
        (List.range ((call_gpt_evaluator clientJ promptJ 3).attempts - 1)).map
          (fun i => (i + 1) * 2)
    ∧ (call_chat_model clientG model promptG 3).attempts ≤ 3
    ∧ (call_chat_model clientG model promptG 3).waits =
        (List.range ((call_chat_model clientG model promptG 3).attempts - 1)).map
          (fun i => (i + 1) * 2)
    ∧ (∀ e0 e1 e2, clientJ promptJ 0 = Except.error e0 →
        clientJ promptJ 1 = Except.error e1 → clientJ promptJ 2 = Except.error e2 →
          (call_gpt_evaluator clientJ promptJ 3).result = "0")
    ∧ (∀ e0 e1 e2, clientG model promptG 0 = Except.error e0 →
        clientG model promptG 1 = Except.error e1 → clientG model promptG 2 = Except.error e2 →
          (call_chat_model clientG model promptG 3).result =
            (none, "ERROR: " ++ e2, "error")) := by
  refine ⟨(evalAttempts3_log (clientJ promptJ)).1, (evalAttempts3_log (clientJ promptJ)).2,
    (chatAttempts3_log (clientG model promptG)).1, (chatAttempts3_log (clientG model promptG)).2,
    ?_, ?_⟩
  · intro e0 e1 e2 h0 h1 h2
    show (evalAttempts (clientJ promptJ) 0 3).result = "0"
    rw [evalAttempts3_allfail (clientJ promptJ) e0 e1 e2 h0 h1 h2]
  · intro e0 e1 e2 h0 h1 h2
    show (chatAttempts (clientG model promptG) 0 3).result = (none, "ERROR: " ++ e2, "error")
    rw [chatAttempts3_allfail (clientG model promptG) e0 e1 e2 h0 h1 h2]

/-- Witness for C7: both calls at concrete always-failing oracles. -/
theorem retry_bounds_and_failsafe_defaults_witness :
    (call_gpt_evaluator (fun _ _ => Except.error "down") "p" 3).result = "0"
    ∧ (call_chat_model (fun _ _ _ => Except.error "boom") "m" "p" 3).result =
        (none, "ERROR: " ++ "boom", "error") :=
  ⟨(retry_bounds_and_failsafe_defaults (fun _ _ => Except.error "down") "p"
      (fun _ _ _ => Except.error "boom") "m" "p").2.2.2.2.1 "down" "down" "down" rfl rfl rfl,
   (retry_bounds_and_failsafe_defaults (fun _ _ => Except.error "down") "p"
      (fun _ _ _ => Except.error "boom") "m" "p").2.2.2.2.2 "boom" "boom" "boom" rfl rfl rfl⟩

/-- Claim C8: for any rubric criterion, an empty or whitespace-only model
response makes the Grading Client return score 0 with zero judge-API
invocations (the second component counts them). -/
theorem empty_response_short_circuits
    (client : String → ℕ → Except String String)
    (criterion model_response user_query : String)
    (h : pyStrip model_response.data = []) :
    evaluate_rubric_item client criterion model_response user_query = (0, 0) := by
  unfold evaluate_rubric_item
  rw [if_pos (Or.inr h)]

/-- Witness for C8: a whitespace-only response against a live-looking
judge oracle. -/
theorem empty_response_short_circuits_witness :
    pyStrip ("   ".data) = []
    ∧ evaluate_rubric_item (fun _ _ => Except.ok "[]") "c" "   " "q" = (0, 0) :=
  ⟨by decide, empty_response_short_circuits (fun _ _ => Except.ok "[]") "c" "   " "q" (by decide)⟩

/-- The Grading Client score is always 0 or 1 (parser totality plus the
fail-safe defaults). -/
lemma evaluate_rubric_item_score (client : String → ℕ → Except String String)
    (criterion model_response user_query : String) :
    (evaluate_rubric_item client criterion model_response user_query).1 = 0 ∨
      (evaluate_rubric_item client criterion model_response user_query).1 = 1 := by
  unfold evaluate_rubric_item
  split
  · left; rfl
  · rcases evalAttempts_result_range
        (client (create_evaluation_prompt criterion model_response user_query)) 3 0 with h | h <;>
      simp [call_gpt_evaluator, h, digitsToNat]

/-- The Case Grader loop equals a keyed filterMap over the rubric items
enumerated from 1: judgments in input order, skipped items (non-dict or
empty criterion) produce nothing yet advance the key counter, and the
judge-API invocation count is the sum over the graded items alone. -/
lemma gradeItemsFrom_spec (client : String → ℕ → Except String String) (resp uq : String) :
    ∀ (items : List (Option RubricItem)) (k : ℕ),
      gradeItemsFrom client resp uq k items =
        ((items.enumFrom k).filterMap (fun p =>
            match p.2 with
            | some item =>
              if item.criterion = "" then none
              else some ("rubric_" ++ toString p.1,
                (⟨item.criterion, item.points, item.axe,
                  (evaluate_rubric_item client item.criterion resp uq).1,
                  item.points * ((evaluate_rubric_item client item.criterion resp uq).1 : ℚ)⟩ :
                  Judgment))
            | none => none),
         ((items.enumFrom k).filterMap (fun p =>
            match p.2 with
            | some item =>
              if item.criterion = "" then none
              else some (evaluate_rubric_item client item.criterion resp uq).2
            | none => none)).sum) := by
  intro items
  induction items with
  | nil => intro k; simp [gradeItemsFrom]
  | cons o rest ih =>
    intro k
    cases o with
    | none => simp [gradeItemsFrom, List.enumFrom_cons, ih (k + 1)]
    | some item =>
      by_cases hc : item.criterion = "" <;>
        simp [gradeItemsFrom, List.enumFrom_cons, hc, ih (k + 1)]

/-- Claim C6: the Case Grader processes rubric items in input order,
skips items with an empty criterion (and non-dict items) without a judge
call — the API-invocation count sums over the graded items alone — keys
each stored judgment `rubric_<k>` with k the 1-based position among all
rubric items including skipped ones, and every stored judgment has
score 0 or 1 with weighted_score = points * score. -/
theorem case_grader_keys_and_scores (client : String → ℕ → Except String String)
    (items : List (Option RubricItem)) (resp uq : String) :
    (gradeItemsFrom client resp uq 1 items).1 =
      ((items.enumFrom 1).filterMap (fun p =>
          match p.2 with
          | some item =>
            if item.criterion = "" then none
            else some ("rubric_" ++ toString p.1,
              (⟨item.criterion, item.points, item.axe,
                (evaluate_rubric_item client item.criterion resp uq).1,
                item.points * ((evaluate_rubric_item client item.criterion resp uq).1 : ℚ)⟩ :
                Judgment))
          | none => none))
    ∧ (gradeItemsFrom client resp uq 1 items).2 =
        ((items.enumFrom 1).filterMap (fun p =>
            match p.2 with
            | some item =>
              if item.criterion = "" then none
              else some (evaluate_rubric_item client item.criterion resp uq).2
            | none => none)).sum
    ∧ ∀ kj ∈ (gradeItemsFrom client resp uq 1 items).1,
        (kj.2.score = 0 ∨ kj.2.score = 1)
        ∧ kj.2.weighted_score = kj.2.points * (kj.2.score : ℚ) := by
  have h := gradeItemsFrom_spec client resp uq items 1
  refine ⟨congrArg Prod.fst h, congrArg Prod.snd h, ?_⟩
  intro kj hmem
  rw [congrArg Prod.fst h] at hmem
  rw [List.mem_filterMap] at hmem
  obtain ⟨p, _, heq⟩ := hmem
  rcases p with ⟨n, oi⟩
  cases oi with
  | none => simp at heq
  | some item =>
    by_cases hc : item.criterion = ""
    · simp [hc] at heq
    · simp only [hc, if_false] at heq
      rw [Option.some_inj] at heq
      subst heq
      exact ⟨evaluate_rubric_item_score client item.criterion resp uq, rfl⟩

/-- Witness for C6: a rubric with a graded item, an empty-criterion item,
a non-dict item and a second graded item yields exactly the keys
rubric_1 and rubric_4. -/
theorem case_grader_keys_and_scores_witness :
    ((gradeItemsFrom (fun _ _ => Except.error "down") "resp" "q" 1
        [some ⟨"X", 10, "a"⟩, some ⟨"", 5, "b"⟩, none, some ⟨"Y", 2, "c"⟩]).1.map
      Prod.fst) = ["rubric_1", "rubric_4"] := by
  rw [(case_grader_keys_and_scores (fun _ _ => Except.error "down")
    [some ⟨"X", 10, "a"⟩, some ⟨"", 5, "b"⟩, none, some ⟨"Y", 2, "c"⟩] "resp" "q").1]
  decide

/-- The max-score loop sums exactly the positive points. -/
lemma maxScoreLoop_eq :
    ∀ (l : List RubricItem) (a : ℚ),
      maxScoreLoop l a =
        a + ((l.filter (fun item => decide (0 < item.points))).map (fun item => item.points)).sum := by
  intro l
  induction l with
  | nil => intro a; simp [maxScoreLoop]
  | cons it rest ih =>
    intro a
    by_cases hp : 0 < it.points <;>
      simp [maxScoreLoop, List.filter_cons, hp, ih, add_assoc]

/-- The total-score loop sums the weighted scores of exactly the entries
with a non-empty criterion contained in the given key list. -/
lemma totalScoreLoop_eq (crits : List String) :
    ∀ (l : List (String × Judgment)) (a : ℚ),
      totalScoreLoop crits l a =
        a + (((l.map Prod.snd).filter (fun e =>
            e.criterion != "" && crits.contains e.criterion)).map
          (fun e => e.weighted_score)).sum := by
  intro l
  induction l with
  | nil => intro a; simp [totalScoreLoop]
  | cons e rest ih =>
    intro a
    by_cases hb : (¬ e.2.criterion = "" ∧ e.2.criterion ∈ crits) <;>
      simp [totalScoreLoop, List.filter_cons, hb, ih, add_assoc]

/-- For a non-empty criterion, membership in the rubric_criteria keys
equals membership among all rubric criteria. -/
lemma mem_rubric_criteria (items : List RubricItem) (c : String) (hc : c ≠ "") :
    (rubric_criteria items).contains c = (items.map (fun item => item.criterion)).contains c := by
  have h : c ∈ rubric_criteria items ↔ c ∈ items.map (fun item => item.criterion) := by
    simp only [rubric_criteria, List.mem_map, List.mem_filter]
    constructor
    · rintro ⟨it, ⟨hmem, _⟩, rfl⟩
      exact ⟨it, hmem, rfl⟩
    · rintro ⟨it, hmem, rfl⟩
      exact ⟨it, ⟨hmem, by simpa using hc⟩, rfl⟩
  have h2 : ∀ l : List String, l.contains c = true ↔ c ∈ l := fun l => List.elem_iff
  rw [Bool.eq_iff_iff, h2, h2]
  exact h

/-- `calculate_max_possible_score` as a filtered sum. -/
lemma calculate_max_possible_score_eq (items : List RubricItem) :
    calculate_max_possible_score items =
      ((items.filter (fun item => decide (0 < item.points))).map (fun item => item.points)).sum := by
  by_cases h : items = []
  · simp [calculate_max_possible_score, h]
  · rw [calculate_max_possible_score, if_neg h, maxScoreLoop_eq, zero_add]

/-- `calculate_case_total_score` as a filtered sum over the entries whose
criterion is non-empty and occurs among the rubric criteria. -/
lemma calculate_case_total_score_eq (evals : List (String × Judgment)) (items : List RubricItem) :
    calculate_case_total_score evals items =
      (((evals.map Prod.snd).filter (fun e =>
          e.criterion != "" && (items.map (fun item => item.criterion)).contains e.criterion)).map
        (fun e => e.weighted_score)).sum := by
  by_cases he : evals = []
  · simp [calculate_case_total_score, he]
  by_cases hi : items = []
  · have hfalse : ∀ e ∈ evals.map Prod.snd,
        (e.criterion != "" &&
          (items.map (fun item => item.criterion)).contains e.criterion) = false := by
      intro e _
      simp [hi]
    rw [calculate_case_total_score, if_pos (Or.inr hi),
      List.filter_eq_nil_iff.mpr (by simpa using hfalse)]
    simp
  · rw [calculate_case_total_score, if_neg (by simp [he, hi]), totalScoreLoop_eq, zero_add]
    congr 1
    refine congrArg (List.map (fun e : Judgment => e.weighted_score)) ?_
    apply List.filter_congr
    intro e _
    by_cases hce : e.criterion = ""
    · simp [hce]
    · rw [mem_rubric_criteria items _ hce]

/-- Claim C3 (amended): max_possible_score is the sum of points over the
rubric items with positive points (items with points ≤ 0 never
contribute), and case_total_score is the sum of weighted_score over
exactly those evaluation entries whose criterion is non-empty and exactly
matches a criterion present in the current rubric file. -/
theorem score_sum_characterizations (evaluations : List (String × Judgment))
    (rubric_items : List RubricItem) :
    calculate_max_possible_score rubric_items =
      ((rubric_items.filter (fun item => decide (0 < item.points))).map
        (fun item => item.points)).sum
    ∧ calculate_case_total_score evaluations rubric_items =
      (((evaluations.map Prod.snd).filter (fun e =>
          e.criterion != "" &&
            (rubric_items.map (fun item => item.criterion)).contains e.criterion)).map
        (fun e => e.weighted_score)).sum :=
  ⟨calculate_max_possible_score_eq rubric_items,
   calculate_case_total_score_eq evaluations rubric_items⟩

/-- Counterexample for C3 as stated: a rubric item whose criterion is the
empty string and a matching evaluation entry — the empty criterion is
present in the rubric file and matched exactly, yet the source excludes
it (the `rubric_criteria` dict drops falsy criteria and the entry loop
skips falsy criteria), so the computed total 0 differs from the claimed
sum 5. -/
theorem case_total_empty_criterion_counterexample :
    calculate_case_total_score [("rubric_1", ⟨"", 3, "a", 1, 5⟩)] [⟨"", 3, "a"⟩] = 0
    ∧ claim_case_total_score [("rubric_1", ⟨"", 3, "a", 1, 5⟩)] [⟨"", 3, "a"⟩] = 5
    ∧ calculate_case_total_score [("rubric_1", ⟨"", 3, "a", 1, 5⟩)] [⟨"", 3, "a"⟩] ≠
        claim_case_total_score [("rubric_1", ⟨"", 3, "a", 1, 5⟩)] [⟨"", 3, "a"⟩] := by
  have h1 : calculate_case_total_score [("rubric_1", ⟨"", 3, "a", 1, 5⟩)] [⟨"", 3, "a"⟩] = 0 := by
    simp [calculate_case_total_score, totalScoreLoop, rubric_criteria]
  have h2 : claim_case_total_score [("rubric_1", ⟨"", 3, "a", 1, 5⟩)] [⟨"", 3, "a"⟩] = 5 := by
    simp [claim_case_total_score]
  exact ⟨h1, h2, by rw [h1, h2]; norm_num⟩

/-- `per_example_score` with its lets unfolded. -/
lemma per_example_score_form (evaluations : List (String × Judgment))
    (rubric_items : List RubricItem) :
    per_example_score evaluations rubric_items =
      (if 0 < calculate_max_possible_score rubric_items then
        calculate_case_total_score evaluations rubric_items /
          calculate_max_possible_score rubric_items
       else 0) := rfl

/-- Claim C4 (amended): for a case whose evaluation entries all carry
non-negative weighted scores the normalized score is non-negative, and it
is at most 1 whenever the case total does not exceed max_possible_score
(the source does not clip per-case scores, so the upper bound needs that
premise); when max_possible_score is 0 the normalized score is exactly
0. -/
theorem normalized_score_bounds (evaluations : List (String × Judgment))
    (rubric_items : List RubricItem)
    (h : ∀ p ∈ evaluations, 0 ≤ (Prod.snd p).weighted_score) :
    0 ≤ per_example_score evaluations rubric_items
    ∧ (calculate_case_total_score evaluations rubric_items ≤
          calculate_max_possible_score rubric_items →
        per_example_score evaluations rubric_items ≤ 1)
    ∧ (calculate_max_possible_score rubric_items = 0 →
        per_example_score evaluations rubric_items = 0) := by
  have htot : 0 ≤ calculate_case_total_score evaluations rubric_items := by
    rw [calculate_case_total_score_eq]
    apply List.sum_nonneg
    intro x hx
    simp only [List.mem_map, List.mem_filter] at hx
    obtain ⟨e, ⟨⟨p, hp, rfl⟩, _⟩, rfl⟩ := hx
    exact h p hp
  rw [per_example_score_form]
  refine ⟨?_, ?_, ?_⟩
  · split_ifs with hm
    · exact div_nonneg htot (le_of_lt hm)
    · exact le_refl 0
  · intro hle
    split_ifs with hm
    · exact (div_le_one hm).mpr hle
    · exact zero_le_one
  · intro h0
    rw [if_neg (by rw [h0]; exact lt_irrefl 0)]

/-- Witness for C4 (amended), at a concrete pipeline-shaped record. -/
theorem normalized_score_bounds_witness :
    (∀ p ∈ [("rubric_1", (⟨"X", 10, "", 1, 10⟩ : Judgment))], 0 ≤ (Prod.snd p).weighted_score)
    ∧ 0 ≤ per_example_score [("rubric_1", ⟨"X", 10, "", 1, 10⟩)] [⟨"X", 10, ""⟩] :=
  ⟨by intro p hp; simp at hp; subst hp; norm_num,
   (normalized_score_bounds [("rubric_1", ⟨"X", 10, "", 1, 10⟩)] [⟨"X", 10, ""⟩]
     (by intro p hp; simp at hp; subst hp; norm_num)).1⟩

/-- Counterexample for C4 as stated: an evaluation entry with
non-negative weighted score 20 against a rubric criterion worth 10 points
(a stale record after an upstream points edit) yields normalized score 2,
outside [0,1] — the source clips only the monthly/overall averages, never
the per-case score. -/
theorem normalized_score_above_one_counterexample :
    per_example_score [("rubric_1", ⟨"X", 10, "", 1, 20⟩)] [⟨"X", 10, ""⟩] = 2
    ∧ (∀ p ∈ [("rubric_1", (⟨"X", 10, "", 1, 20⟩ : Judgment))], 0 ≤ (Prod.snd p).weighted_score)
    ∧ ¬ per_example_score [("rubric_1", ⟨"X", 10, "", 1, 20⟩)] [⟨"X", 10, ""⟩] ≤ 1 := by
  have h1 : per_example_score [("rubric_1", ⟨"X", 10, "", 1, 20⟩)] [⟨"X", 10, ""⟩] = 2 := by
    simp [per_example_score, calculate_case_total_score, totalScoreLoop, rubric_criteria,
      calculate_max_possible_score, maxScoreLoop]
    norm_num
  refine ⟨h1, ?_, ?_⟩
  · intro p hp; simp at hp; subst hp; norm_num
  · rw [h1]; norm_num

/-- An "Unknown"-month case contributes to no month's score list. -/
lemma monthly_scores_for_unknown (i : ScoreInfo) (h : i.year_month = "Unknown") :
    ∀ (pre post : List ScoreInfo) (ym : String),
      monthly_scores_for (pre ++ i :: post) ym = monthly_scores_for (pre ++ post) ym := by
  intro pre
  induction pre with
  | nil => intro post ym; simp [monthly_scores_for, h]
  | cons p rest ih =>
    intro post ym
    simp only [List.cons_append, monthly_scores_for, List.append_eq]
    rw [ih post ym]

/-- An "Unknown"-month case contributes no month to the row set. -/
lemma all_months_unknown (i : ScoreInfo) (h : i.year_month = "Unknown") :
    ∀ (pre post : List ScoreInfo),
      all_months (pre ++ i :: post) = all_months (pre ++ post) := by
  intro pre post
  unfold all_months
  simp [List.foldl_append, h]

/-- Claim C5: a case whose timestamp fails ISO-8601 parsing is bucketed
"Unknown"; such a case is excluded from every monthly score list and from
the month row set, yet its normalized score still occupies its position
in the list feeding that model's overall average. -/
theorem unknown_month_excluded_yet_in_overall
    (evaluations : List (String × Judgment)) (rubric_items : List RubricItem)
    (post_time : String)
    (hfail : extract_year_month post_time = "Unknown") :
    (case_score_info evaluations rubric_items post_time).year_month = "Unknown"
    ∧ ∀ i : ScoreInfo, i.year_month = "Unknown" →
        ∀ (pre post : List ScoreInfo),
          (∀ ym, monthly_scores_for (pre ++ i :: post) ym = monthly_scores_for (pre ++ post) ym)
          ∧ all_months (pre ++ i :: post) = all_months (pre ++ post)
          ∧ overall_scores (pre ++ i :: post) =
              overall_scores pre ++ i.score :: overall_scores post := by
  constructor
  · show (if post_time ≠ "" then extract_year_month post_time else "Unknown") = "Unknown"
    split_ifs with hp
    · exact hfail
    · rfl
  · intro i hi pre post
    exact ⟨fun ym => monthly_scores_for_unknown i hi pre post ym,
      all_months_unknown i hi pre post, by simp [overall_scores]⟩

/-- Witness for C5 at the unparseable timestamp "not-a-date". -/
theorem unknown_month_excluded_yet_in_overall_witness :
    extract_year_month "not-a-date" = "Unknown"
    ∧ (case_score_info [] [] "not-a-date").year_month = "Unknown"
    ∧ monthly_scores_for ([] ++ (⟨1, "not-a-date", "Unknown"⟩ : ScoreInfo) :: []) "2025-04" =
        monthly_scores_for ([] ++ []) "2025-04"
    ∧ overall_scores ([] ++ (⟨1, "not-a-date", "Unknown"⟩ : ScoreInfo) :: []) =
        overall_scores [] ++ (1 : ℚ) :: overall_scores [] := by
  have h := unknown_month_excluded_yet_in_overall [] [] "not-a-date" (by decide)
  have h2 := h.2 ⟨1, "not-a-date", "Unknown"⟩ rfl [] []
  exact ⟨by decide, h.1, h2.1 "2025-04", h2.2.2⟩

/-- Claim C1, evaluated at the failing input: resuming with an existing
record for case "A" while the rubric file still contains case "A" (with
rubric items) writes the resumed record twice — the already-evaluated
branch appends it to `results` (evaluate_model.py line 373) and the final
save prepends `existing_evaluations.values()` again (line 453) — so the
final output has two records for case_id "A", not exactly one. -/
theorem resume_duplicates_resumed_record :
    process_evaluations judgeDown [("A", recordA)] (fun _ => some "resp") none [rubricCaseA] =
      [recordA, recordA]
    ∧ ((process_evaluations judgeDown [("A", recordA)] (fun _ => some "resp") none
          [rubricCaseA]).filter (fun r => r.case_id == "A")).length = 2 := by
  decide

/-- Claim C9 (amended): the no-rubric skip is evaluated before the
already-graded check — a no-rubric case never reaches the resumed-record
re-append branch — but the branch does consult the previously loaded
results: the empty record is emitted only when the case_id is absent from
them. -/
theorem no_rubric_skip_before_resume_check
    (client : String → ℕ → Except String String) (existing : List (String × EvalRecord))
    (model_results : String → Option String) (max_cases : Option ℕ)
    (c : GradeCase) (rest : List GradeCase) (n : ℕ) (cid : String)
    (hid : c.case_id = some cid) (hrub : c.rubric_items = [])
    (hbudget : atMaxCases max_cases n = false) :
    processEvalsLoop client existing model_results max_cases (c :: rest) n =
      (if findRecord existing cid = none then [⟨cid, []⟩] else []) ++
        processEvalsLoop client existing model_results max_cases rest n := by
  simp [processEvalsLoop, hbudget, hid, hrub]

/-- Witness for C9 (amended) at a concrete resumed no-rubric case. -/
theorem no_rubric_skip_before_resume_check_witness :
    rubricCaseANoItems.case_id = some "A"
    ∧ rubricCaseANoItems.rubric_items = []
    ∧ atMaxCases none 0 = false
    ∧ processEvalsLoop judgeDown [("A", recordA)] (fun _ => some "resp") none
        [rubricCaseANoItems] 0 =
      (if findRecord [("A", recordA)] "A" = none then [⟨"A", []⟩] else []) ++
        processEvalsLoop judgeDown [("A", recordA)] (fun _ => some "resp") none [] 0 :=
  ⟨rfl, rfl, rfl,
   no_rubric_skip_before_resume_check judgeDown [("A", recordA)] (fun _ => some "resp") none
     rubricCaseANoItems [] 0 "A" rfl rfl rfl⟩

/-- Counterexample for C9 as stated: for a no-rubric case whose case_id
is among the previously loaded results, no empty record is emitted — the
final output holds only the resumed (non-empty) record, so the branch
does consult existing results. -/
theorem no_rubric_existing_case_emits_nothing :
    process_evaluations judgeDown [("A", recordA)] (fun _ => some "resp") none
        [rubricCaseANoItems] = [recordA]
    ∧ recordA.evaluations ≠ [] := by
  decide

/-- Claim C10 (amended): a case lacking a case_id gets the synthesized id
`case_<positional-index>`; the record produced for it carries exactly
that id, and on resume it is skipped exactly when some prior record's
case_id equals `case_<current position>` — a purely positional
criterion. -/
theorem synthesized_id_resume_is_positional
    (client : String → String → ℕ → Except String (Option String × Option String))
    (model : String) (max_cases : Option ℕ) (c : GenCase) (rest : List GenCase)
    (idx : ℕ) (processed_ids : List String) (processed_count : ℕ)
    (hid : c.case_id = none) :
    (("case_" ++ toString idx) ∈ processed_ids →
      processCasesLoop client model max_cases (c :: rest) idx processed_ids processed_count =
        processCasesLoop client model max_cases rest (idx + 1) processed_ids processed_count)
    ∧ (("case_" ++ toString idx) ∉ processed_ids →
        processCasesLoop client model max_cases (c :: rest) idx processed_ids processed_count =
          (⟨"case_" ++ toString idx, c.post_time, c.narrative, c.core_request,
            (call_chat_model client model (create_prompt c.narrative c.core_request) 3).result.2.1,
            (call_chat_model client model (create_prompt c.narrative c.core_request) 3).result.2.2,
            c.doctor_advice⟩ : GenRecord) ::
          (if atMaxCases max_cases (processed_count + 1) then []
           else processCasesLoop client model max_cases rest (idx + 1)
              (processed_ids ++ ["case_" ++ toString idx]) (processed_count + 1))) := by
  constructor
  · intro hmem
    have hco : processed_ids.contains ("case_" ++ toString idx) = true := List.elem_iff.mpr hmem
    simp only [processCasesLoop, hid, Option.getD_none, hco, if_true]
  · intro hmem
    have hco : processed_ids.contains ("case_" ++ toString idx) = false :=
      Bool.eq_false_iff.mpr (fun hx => hmem (List.elem_iff.mp hx))
    simp only [processCasesLoop, hid, Option.getD_none, hco, Bool.false_eq_true, if_false]

/-- Witness for C10 (amended) at a concrete id-less case whose
synthesized id collides with a prior record. -/
theorem synthesized_id_resume_is_positional_witness :
    ("case_" ++ toString 0) ∈ ["case_0"]
    ∧ processCasesLoop genClientOK "m" none [genCaseA] 0 ["case_0"] 0 =
        processCasesLoop genClientOK "m" none [] 1 ["case_0"] 0 :=
  ⟨by decide,
   (synthesized_id_resume_is_positional genClientOK "m" none genCaseA [] 0 ["case_0"] 0 rfl).1
     (by decide)⟩

/-- Counterexample for C10 as stated ("skipped only if it occupies the
same position as in the prior run"): after a run over [A, B] (both
id-less), resuming over [B] skips B — its current position 0 collides
with A's prior synthesized id — even though B occupied position 1 in the
prior run (second conjunct: the prior record at index 1 carries B's
narrative). -/
theorem synthesized_id_skip_despite_moved_position :
    (process_cases genClientOK "m" none false [] [genCaseA, genCaseB]).map
        (fun r => r.case_id) = ["case_0", "case_1"]
    ∧ (process_cases genClientOK "m" none false [] [genCaseA, genCaseB]).map
        (fun r => r.narrative) = ["narrA", "narrB"]
    ∧ process_cases genClientOK "m" none true
        (process_cases genClientOK "m" none false [] [genCaseA, genCaseB]) [genCaseB] =
      process_cases genClientOK "m" none false [] [genCaseA, genCaseB] := by
  decide
